import Mathlib

/-!
Verification of the nixos-installer provisioning core against its
natural-language specification.

The definitions below are a shallow embedding of the Go sources:
- `pkg/utils/utils.go` — command execution gateway (`Execute`,
  `ExecuteSilent`, `ExecuteStdOut`), device inventory resolver
  (`GetMountpoints`), `UnmountAll`;
- `pkg/installer/installer.go` — the provisioning pipeline (`Run`):
  flag handling, mkdir step, zpool argument assembly, dataset creation,
  mount step, host-identity patching of the generated configuration;
- `pkg/config` — `validateConfig`.

External effects (process invocation, exit status, captured stdout) are
modelled by passing the behaviour of the external program explicitly;
machine state that the code never branches on is omitted.
-/

namespace NixosInstaller

/-- A fully-formed command line: program name plus arguments
(`exec.Command(cmdName, args...)`). -/
structure Cmd where
  name : String
  args : List String
deriving DecidableEq, Repr

/-- The observable behaviour of the external program, were it run:
its exit status and its standard output. -/
structure ExternalBehavior where
  success : Bool
  stdout : String
deriving DecidableEq, Repr

/-- What one gateway call does: whether the external program was actually
invoked, the would-run notice recorded (carrying the fully-formed command),
whether the call was fatal to the run, and the captured output returned. -/
structure GatewayEffect where
  invoked : Bool
  notice : Option Cmd
  fatal : Bool
  captured : String
deriving DecidableEq, Repr

/-- `utils.Execute` (utils.go lines 32-43): strict gateway call.
`if execute { validate.Panic(cmd.Run()) } else { log DRY RUN }`:
in commit mode the program runs and a non-zero exit panics (fatal);
in simulate mode nothing runs and the command is logged as a would-run
notice. No output is captured by this variant. -/
def Execute (execute : Bool) (cmd : Cmd) (ext : ExternalBehavior) : GatewayEffect :=
  if execute then
    { invoked := true, notice := none, fatal := !ext.success, captured := "" }
  else
    { invoked := false, notice := some cmd, fatal := false, captured := "" }

/-- `utils.ExecuteSilent` (utils.go lines 46-60): best-effort gateway call.
As `Execute`, but a non-zero exit in commit mode is only logged and the
run continues (never fatal). -/
def ExecuteSilent (execute : Bool) (cmd : Cmd) (_ext : ExternalBehavior) : GatewayEffect :=
  if execute then
    { invoked := true, notice := none, fatal := false, captured := "" }
  else
    { invoked := false, notice := some cmd, fatal := false, captured := "" }

/-- `utils.ExecuteStdOut` (utils.go lines 63-77), translated exactly as
written: the mode test is `if !execute`, so when `execute` is FALSE the
program is run via `cmd.Output()` (its stdout captured and returned, a
failure fatal via `validate.Error`), and when `execute` is TRUE the
function only logs the DRY RUN notice and returns the empty string. -/
def ExecuteStdOut (execute : Bool) (cmd : Cmd) (ext : ExternalBehavior) : GatewayEffect :=
  if !execute then
    { invoked := true, notice := none, fatal := !ext.success, captured := ext.stdout }
  else
    { invoked := false, notice := some cmd, fatal := false, captured := "" }

/-- `utils.UnmountAll` (utils.go lines 151-163) under an explicit failure
oracle `umountFails` telling which paths' `umount` would exit non-zero.
The loop body is the strict `Execute`, whose commit-mode failure panics
(`validate.Panic`), aborting the run. Returns the paths for which an
`umount` call was issued (or a dry-run notice recorded), together with
whether the run aborted. -/
def UnmountAll (execute : Bool) (umountFails : String → Bool) :
    List String → List String × Bool
  | [] => ([], false)
  | m :: rest =>
    if execute && umountFails m then
      ([m], true)
    else
      let r := UnmountAll execute umountFails rest
      (m :: r.1, r.2)

/-!
## Provisioning Request (pkg/config `Config`, as consumed by installer.go)
-/

/-- `Config.ZFS.Pool` (pkg/config): pool name and feature toggles. -/
structure ZFSPool where
  name : String
  compression : Bool
  encryption : Bool
  mirror : Bool
  stripe : Bool
deriving DecidableEq, Repr

/-- The validated Provisioning Request, with the fields installer.go reads:
`NixOS.HostID`, `NixOS.Flake`, `NixOS.Config.Enabled`, `UEFI.*`,
`ZFS.Pool.*`, `ZFS.Disks`, `Swap.Enabled`, `Swap.Size`. -/
structure Config where
  hostID : String
  flake : String
  nixosConfigEnabled : Bool
  uefiLabel : String
  uefiDisk : String
  uefiSize : String
  pool : ZFSPool
  disks : List String
  swapEnabled : Bool
  swapSize : String
deriving DecidableEq, Repr

/-- `pkg/config.validateConfig` error cases. -/
inductive ConfigError where
  | flakeNotSpecified : ConfigError
  | invalidBlockDevice : String → ConfigError
  | mirrorAndStripe : ConfigError
  | neitherMirrorNorStripe : ConfigError
deriving DecidableEq, Repr

/-- `pkg/config.validateConfig`: flake must be set, every named disk must be
a valid block device (an external predicate, passed in), and with more than
one data disk exactly one of mirror/stripe must be chosen. Returns the
first error encountered, or `none` when the config is accepted. -/
def validateConfig (isBlock : String → Bool) (c : Config) : Option ConfigError :=
  if c.flake = "" then some .flakeNotSpecified
  else if !isBlock c.uefiDisk then some (.invalidBlockDevice c.uefiDisk)
  else
    match c.disks.find? (fun d => !isBlock d) with
    | some d => some (.invalidBlockDevice d)
    | none =>
      if 1 < c.disks.length then
        if c.pool.mirror && c.pool.stripe then some .mirrorAndStripe
        else if !c.pool.mirror && !c.pool.stripe then some .neitherMirrorNorStripe
        else none
      else none

/-!
## Storage Provisioning Pipeline (installer.go `Run`)
-/

/-- `const mountPoint = "/mnt/nixos"` (installer.go line 19). -/
def mountPoint : String := "/mnt/nixos"

/-- The zpool-creation argument list assembled by installer.go lines
411-461, transcribed append by append in the source's statement order. -/
def zpoolArgs (c : Config) : List String :=
  let a := ["create", "-f"]
  let a := if c.pool.compression then a ++ ["-O", "compression=zstd-3"] else a
  let a := if c.pool.encryption then
      a ++ ["-O", "encryption=aes-256-gcm"]
        ++ ["-O", "keyformat=passphrase"]
        ++ ["-O", "keylocation=prompt"]
    else a
  let a := a ++ ["-O", "acltype=posixacl"]
  let a := a ++ ["-O", "atime=off"]
  let a := a ++ ["-O", "relatime=off"]
  let a := a ++ ["-O", "canmount=noauto"]
  let a := a ++ ["-O", "logbias=throughput"]
  let a := a ++ ["-O", "mountpoint=none"]
  let a := a ++ ["-O", "normalization=formD"]
  let a := a ++ ["-O", "primarycache=metadata"]
  let a := a ++ ["-O", "recordsize=32K"]
  let a := a ++ ["-O", "secondarycache=metadata"]
  let a := a ++ ["-O", "sync=standard"]
  let a := a ++ ["-O", "dnodesize=auto"]
  let a := a ++ ["-O", "xattr=sa"]
  let a := a ++ ["-o", "autotrim=on"]
  let a := a ++ ["-o", "ashift=12"]
  let a := a ++ ["-R", mountPoint]
  let a := a ++ [c.pool.name]
  let a := if 1 < c.disks.length then
      if c.pool.mirror then a ++ ["mirror"] else a
    else a
  a ++ c.disks

/-!
Canonical decomposition of the zpool argument list, following the spec's
words (§4.3 step 5) group by group. The `zpoolRedundancyArgs` group below
is the AMENDED form (keyword only for mirror); `zpoolRedundancyClaimed`
further down is the group exactly as the claim states it.
-/

/-- Spec group: subcommand and force flag. -/
def zpoolForceArgs : List String := ["create", "-f"]

/-- Spec group: compression option, when enabled. -/
def zpoolCompressionArgs (c : Config) : List String :=
  if c.pool.compression then ["-O", "compression=zstd-3"] else []

/-- Spec group: encryption options, when enabled. -/
def zpoolEncryptionArgs (c : Config) : List String :=
  if c.pool.encryption then
    ["-O", "encryption=aes-256-gcm", "-O", "keyformat=passphrase",
     "-O", "keylocation=prompt"]
  else []

/-- Spec group: the fixed baseline tuning option block. -/
def zpoolTuningArgs : List String :=
  ["-O", "acltype=posixacl", "-O", "atime=off", "-O", "relatime=off",
   "-O", "canmount=noauto", "-O", "logbias=throughput", "-O", "mountpoint=none",
   "-O", "normalization=formD", "-O", "primarycache=metadata",
   "-O", "recordsize=32K", "-O", "secondarycache=metadata",
   "-O", "sync=standard", "-O", "dnodesize=auto", "-O", "xattr=sa",
   "-o", "autotrim=on", "-o", "ashift=12"]

/-- Spec group: the alternate mount root. -/
def zpoolMountRootArgs : List String := ["-R", mountPoint]

/-- Everything before the redundancy keyword and disk list: option groups
in the spec's canonical order, then the pool name. -/
def zpoolHead (c : Config) : List String :=
  zpoolForceArgs ++ zpoolCompressionArgs c ++ zpoolEncryptionArgs c
    ++ zpoolTuningArgs ++ zpoolMountRootArgs ++ [c.pool.name]

/-- Redundancy group as the code produces it: the keyword only for a
multi-disk mirror pool; a stripe pool gets no keyword. -/
def zpoolRedundancyArgs (c : Config) : List String :=
  if 1 < c.disks.length then
    if c.pool.mirror then ["mirror"] else []
  else []

/-- Canonical (amended) zpool argument order, from the spec's words. -/
def zpoolArgsCanonical (c : Config) : List String :=
  zpoolHead c ++ zpoolRedundancyArgs c ++ c.disks

/-- Redundancy group exactly as claim C5/C6 state it: with more than one
data disk the redundancy keyword (`mirror` or `stripe`) is present. -/
def zpoolRedundancyClaimed (c : Config) : List String :=
  if 1 < c.disks.length then
    if c.pool.mirror then ["mirror"] else ["stripe"]
  else []

/-- Zpool argument order exactly as claim C5 states it. -/
def zpoolArgsSpecClaimed (c : Config) : List String :=
  zpoolHead c ++ zpoolRedundancyClaimed c ++ c.disks

/-- The `zfs create` command for a dataset mounted via
`-o mountpoint=legacy` (installer.go lines 480-525 and 539-585);
`path.Join(zfsPoolName, ds)` for the plain names used here is
`zfsPoolName ++ "/" ++ ds`. -/
def zfsCreateLegacy (c : Config) (ds : String) : Cmd :=
  Cmd.mk "zfs" ["create", "-o", "mountpoint=legacy", c.pool.name ++ "/" ++ ds]

/-- The `zfs create` command for the swap volume (installer.go lines
527-537): a block volume with an explicit size, no mountpoint option. -/
def zfsCreateSwap (c : Config) : Cmd :=
  Cmd.mk "zfs" ["create", "-V", c.swapSize, c.pool.name ++ "/" ++ "swap"]

/-- The dataset/volume-creation step (installer.go lines 477-585): the
nine `zfs create` commands issued, in source order. -/
def zfsDatasetCommands (c : Config) : List Cmd :=
  [zfsCreateLegacy c "root",
   zfsCreateLegacy c "boot",
   zfsCreateLegacy c "home",
   zfsCreateLegacy c "nix",
   zfsCreateSwap c,
   zfsCreateLegacy c "tmp",
   zfsCreateLegacy c "var",
   zfsCreateLegacy c "var/lib",
   zfsCreateLegacy c "var/lib/docker"]

/-- A `mount -o X-mount.mkdir -t zfs <pool>/<ds> <target>` command
(installer.go lines 596-619 and 651-727). -/
def mountZfsCmd (c : Config) (ds target : String) : Cmd :=
  Cmd.mk "mount"
    ["-o", "X-mount.mkdir", "-t", "zfs", c.pool.name ++ "/" ++ ds, target]

/-- The mount step (installer.go lines 593-727): every `mount` command
issued, in source order (root, boot, the UEFI partition, optionally the
NixOS config partition, then home, nix, var, var/lib, var/lib/docker,
tmp). -/
def mountCommands (c : Config) : List Cmd :=
  [mountZfsCmd c "root" mountPoint,
   mountZfsCmd c "boot" (mountPoint ++ "/boot"),
   Cmd.mk "mount"
     ["-t", "vfat", "-o",
      "fmask=0077,dmask=0077,iocharset=iso8859-1,X-mount.mkdir",
      c.uefiDisk ++ "-part1", mountPoint ++ "/boot/efi"]]
  ++ (if c.nixosConfigEnabled then
        [Cmd.mk "mount"
          ["-o", "X-mount.mkdir", "-t", "xfs",
           c.uefiDisk ++ "-part2", mountPoint ++ "/boot/nixos"]]
      else [])
  ++ [mountZfsCmd c "home" (mountPoint ++ "/home"),
      mountZfsCmd c "nix" (mountPoint ++ "/nix"),
      mountZfsCmd c "var" (mountPoint ++ "/var"),
      mountZfsCmd c "var/lib" (mountPoint ++ "/var/lib"),
      mountZfsCmd c "var/lib/docker" (mountPoint ++ "/var/lib/docker"),
      mountZfsCmd c "tmp" (mountPoint ++ "/tmp")]

/-- The directory-creation step (installer.go lines 96-192): the ten
`mkdir -p` commands issued unconditionally at the start of the pipeline,
in source order. -/
def mkdirCommands : List Cmd :=
  [Cmd.mk "mkdir" ["-p", mountPoint],
   Cmd.mk "mkdir" ["-p", mountPoint ++ "/boot"],
   Cmd.mk "mkdir" ["-p", mountPoint ++ "/boot/efi"],
   Cmd.mk "mkdir" ["-p", mountPoint ++ "/boot/nixos"],
   Cmd.mk "mkdir" ["-p", mountPoint ++ "/home"],
   Cmd.mk "mkdir" ["-p", mountPoint ++ "/nix"],
   Cmd.mk "mkdir" ["-p", mountPoint ++ "/var"],
   Cmd.mk "mkdir" ["-p", mountPoint ++ "/var/lib"],
   Cmd.mk "mkdir" ["-p", mountPoint ++ "/var/lib/docker"],
   Cmd.mk "mkdir" ["-p", mountPoint ++ "/tmp"]]

/-!
## Orchestration Entry Point (installer.go `Run`, lines 33-102)
-/

/-- The three command-line flags registered by `Run` and their defaults
(installer.go lines 36-56): `-config` (default `config.yaml`),
`-run` (default false = dry run), `-install` (default false). -/
structure Flags where
  configFile : String
  execute : Bool
  install : Bool
deriving DecidableEq, Repr

/-- The flag defaults of installer.go lines 36-56. -/
def defaultFlags : Flags := Flags.mk "config.yaml" false false

/-- The Go `flag` package's handling of the three registered flags
(the `-name value` / bare boolean forms): unknown or malformed arguments
are a parse error; an empty argument list parses to the defaults. -/
def parseFlags : List String → Flags → Option Flags
  | [], f => some f
  | "-run" :: rest, f => parseFlags rest { f with execute := true }
  | "-install" :: rest, f => parseFlags rest { f with install := true }
  | "-config" :: v :: rest, f => parseFlags rest { f with configFile := v }
  | _, _ => none

/-- What the program does once invoked: on a flag parse error the `flag`
package prints usage and exits with status 2; otherwise `Run` proceeds
straight into the pipeline with the parsed flags — there is no
argument-count check and no usage-and-exit-0 branch in the source.
`printUsageAndExitZero` is the behaviour claim C8 predicts for an empty
argument list; no code path produces it. -/
inductive EntryAction where
  | printUsageAndExitZero : EntryAction
  | flagErrorUsageExitTwo : EntryAction
  | runPipeline : Flags → EntryAction
deriving DecidableEq, Repr

/-- The entry decision of installer.go `Run`: parse flags, then proceed
into the pipeline unconditionally (first reading the config file named by
the `-config` flag). -/
def entry (args : List String) : EntryAction :=
  match parseFlags args defaultFlags with
  | none => .flagErrorUsageExitTwo
  | some f => .runPipeline f

/-!
## System Configuration Patcher (installer.go lines 744-776)

The Go code compiles the regular expression `"\n{\n"` (three literal
characters: newline, opening brace, newline — the brace is literal in
RE2 since it starts no valid repetition) and applies
`ReplaceAllString(text, "\n{\n" + hostIdLine + "\n")`, replacing every
non-overlapping occurrence left to right. Text is modelled as `List Char`;
the brace and newline characters are written via `Char.ofNat`.
-/

/-- The newline character. -/
def nlChar : Char := Char.ofNat 10

/-- The opening-brace character. -/
def obChar : Char := Char.ofNat 123

/-- The block-opening marker `"\n{\n"` matched by the patcher's regex. -/
def blockMarker : List Char := [nlChar, obChar, nlChar]

/-- The host-identity assignment line
`"  networking.hostId = \"<id>\";\n"` (installer.go line 770). -/
def hostIdLine (id : List Char) : List Char :=
  "  networking.hostId = \"".data ++ id ++ "\";\n".data

/-- The text inserted after each matched marker: the replacement is
`"\n{\n" + hostIdLine + "\n"`, i.e. the marker itself followed by the
assignment line and one extra newline (a blank line). -/
def hostIdInsertion (id : List Char) : List Char :=
  hostIdLine id ++ [nlChar]

/-- `regex.ReplaceAllString` for the literal pattern `"\n{\n"`: scan left
to right; at each match emit the marker plus the insertion and resume
after the matched characters (no rescanning of the replacement);
otherwise advance one character (installer.go lines 769-771). -/
def patchHostId (id : List Char) : List Char → List Char
  | c1 :: c2 :: c3 :: rest =>
    if c1 = nlChar ∧ c2 = obChar ∧ c3 = nlChar then
      c1 :: c2 :: c3 :: (hostIdInsertion id ++ patchHostId id rest)
    else
      c1 :: patchHostId id (c2 :: c3 :: rest)
  | s => s

/-- Number of (non-overlapping, left-to-right) occurrences of the block
marker in a text, counted by the same scan the patcher performs. -/
def markerCount : List Char → Nat
  | c1 :: c2 :: c3 :: rest =>
    if c1 = nlChar ∧ c2 = obChar ∧ c3 = nlChar then
      1 + markerCount rest
    else
      markerCount (c2 :: c3 :: rest)
  | _ => 0

/-!
## Device Inventory Resolver (utils.go lines 104-148)

Identifiers and mount paths are modelled as `List Char`; the inventory
snapshot is the already-unmarshalled `blockdevices` array.
-/

/-- `utils.BlockDevice`: one entry of the `lsblk` JSON, with its `id`
and `mountpoints` fields (a null `id` unmarshals to the empty string and
a null `mountpoints` array to the empty list). -/
structure BlockDevice where
  id : List Char
  mountpoints : List (List Char)
deriving DecidableEq, Repr

/-- Go `strings.TrimPrefix p s`: drop `p` when it is a prefix of `s`,
otherwise return `s` unchanged. Case-sensitive. -/
def trimPre (p s : List Char) : List Char :=
  if p.isPrefixOf s then s.drop p.length else s

/-- Go `strings.TrimSpace`: drop whitespace from both ends. -/
def trimSpace (s : List Char) : List Char :=
  (s.dropWhile Char.isWhitespace).reverse.dropWhile Char.isWhitespace |>.reverse

/-- Go `strings.ToLower` on the ASCII identifiers involved here. -/
def lowerChars (s : List Char) : List Char :=
  s.map Char.toLower

/-- Go `strings.Contains hay needle`: substring containment; every string
contains the empty string. -/
def containsSub (hay needle : List Char) : Bool :=
  if needle.isPrefixOf hay then true
  else
    match hay with
    | [] => false
    | _ :: t => containsSub t needle

/-- The query normalisation of `GetMountpoints` (utils.go lines 108-113):
`TrimPrefix "/dev/disk/by-id/"`, then `TrimPrefix "usb-"`, then
`TrimPrefix "nvme-"`, then `TrimSpace`, then `ToLower` — the prefix
stripping happens before lowercasing and is case-sensitive. -/
def normalizeDeviceID (s : List Char) : List Char :=
  lowerChars (trimSpace
    (trimPre "nvme-".data (trimPre "usb-".data (trimPre "/dev/disk/by-id/".data s))))

/-- The per-device loop body of `GetMountpoints` (utils.go lines 122-145)
against an already-normalised query `d`: skip devices with an empty id;
trim and lowercase the entry's id; on substring match collect the entry's
non-empty mount paths in order. -/
def GetMountpointsCore (d : List Char) (devices : List BlockDevice) : List (List Char) :=
  devices.flatMap fun device =>
    if device.id = [] then []
    else if containsSub (lowerChars (trimSpace device.id)) d then
      device.mountpoints.filter (fun m => m ≠ [])
    else []

/-- `utils.GetMountpoints` on a parsed snapshot: normalise the query, then
scan the device list (utils.go lines 104-148). The JSON-unmarshalling
error path concerns only malformed snapshot bytes and is outside this
structured model. -/
def GetMountpoints (deviceID : List Char) (devices : List BlockDevice) : List (List Char) :=
  GetMountpointsCore (normalizeDeviceID deviceID) devices

/-!
## Concrete scenario values used by the theorems below
-/

/-- The spec's single-disk end-to-end scenario: one data disk, swap
disabled (the size field holds `8GiB`), explicit host id `abc12345`. -/
def swapDisabledRequest : Config :=
  Config.mk "abc12345" "github-flake" false "ESP" "/dev/sda" "1GiB"
    (ZFSPool.mk "zpool" true false false false) ["/dev/sdb"] false "8GiB"

/-- A two-disk stripe request (redundancy mode `stripe`). -/
def stripeRequest : Config :=
  Config.mk "" "github-flake" false "ESP" "/dev/sda" "1GiB"
    (ZFSPool.mk "tank" false false false true) ["/dev/sdb", "/dev/sdc"] false "2GiB"

/-- A second two-disk stripe request, with compression enabled. -/
def stripeRequestTwo : Config :=
  Config.mk "" "github-flake" false "ESP" "/dev/sda" "1GiB"
    (ZFSPool.mk "rpool" true false false true) ["/dev/sdd", "/dev/sde"] false "4GiB"

/-- The spec's two-disk mirror scenario with swap enabled at `8GiB`. -/
def mirrorRequest : Config :=
  Config.mk "abc12345" "github-flake" false "ESP" "/dev/sda" "1GiB"
    (ZFSPool.mk "tank" true true true false) ["/dev/nvme0", "/dev/nvme1"] true "8GiB"

/-- A two-disk request with neither mirror nor stripe chosen. -/
def neitherRequest : Config :=
  Config.mk "" "github-flake" false "ESP" "/dev/sda" "1GiB"
    (ZFSPool.mk "tank" false false false false) ["/dev/sdb", "/dev/sdc"] false "2GiB"

/-- A two-disk request with both mirror and stripe chosen. -/
def bothRequest : Config :=
  Config.mk "" "github-flake" false "ESP" "/dev/sda" "1GiB"
    (ZFSPool.mk "tank" false false true true) ["/dev/sdb", "/dev/sdc"] false "2GiB"

/-- A configuration text containing the block-opening marker twice. -/
def twoMarkerText : List Char :=
  "a".data ++ blockMarker ++ "b".data ++ blockMarker ++ "c".data

/-- An inventory snapshot with a single device whose id is `abc123`,
mounted at `/mnt/x`. -/
def abcSnapshot : List BlockDevice :=
  [BlockDevice.mk "abc123".data ["/mnt/x".data]]

/-- An inventory snapshot exercising the resolver's edge cases: a device
with a null id, a device with a null mount path among its mount points,
and a device with no mount points. -/
def mixedSnapshot : List BlockDevice :=
  [BlockDevice.mk [] ["/mnt/ghost".data],
   BlockDevice.mk "sda1".data [[], "/mnt/a".data],
   BlockDevice.mk "nvme0n1".data []]

/-!
## Theorems
-/

/-- Helper: the source's sequential zpool argument assembly equals the
canonical grouped decomposition with the mirror-only redundancy group. -/
theorem zpoolArgs_eq_canonical (c : Config) : zpoolArgs c = zpoolArgsCanonical c := by
  unfold zpoolArgs zpoolArgsCanonical zpoolHead zpoolForceArgs
    zpoolCompressionArgs zpoolEncryptionArgs zpoolTuningArgs
    zpoolMountRootArgs zpoolRedundancyArgs
  by_cases hc : c.pool.compression <;>
    by_cases he : c.pool.encryption <;>
      by_cases hd : 1 < c.disks.length <;>
        by_cases hm : c.pool.mirror <;>
          simp [hc, he, hd, hm]

/-- Claim C1 (code bug): under simulate mode (`execute = false`) the
output-capturing gateway variant `ExecuteStdOut` actually invokes the
external program and returns its real stdout — its mode test is inverted —
while under commit mode it records a would-run notice and returns empty
output; the strict and best-effort variants do behave as the claim states
under simulate. Evaluated here at the source's own call sites (the `lsblk`
inventory capture and the machine-id read). -/
theorem C1_executestdout_mode_inverted :
    (ExecuteStdOut false
        (Cmd.mk "lsblk" ["--noheadings", "--json", "--output", "ID,MOUNTPOINTS"])
        (ExternalBehavior.mk true "OUTPUT")).invoked = true
  ∧ (ExecuteStdOut false
        (Cmd.mk "lsblk" ["--noheadings", "--json", "--output", "ID,MOUNTPOINTS"])
        (ExternalBehavior.mk true "OUTPUT")).captured = "OUTPUT"
  ∧ ExecuteStdOut true (Cmd.mk "head" ["-c", "8", "/etc/machine-id"])
        (ExternalBehavior.mk true "abcd1234")
      = GatewayEffect.mk false (some (Cmd.mk "head" ["-c", "8", "/etc/machine-id"])) false ""
  ∧ Execute false (Cmd.mk "umount" ["/mnt/a"]) (ExternalBehavior.mk true "")
      = GatewayEffect.mk false (some (Cmd.mk "umount" ["/mnt/a"])) false ""
  ∧ ExecuteSilent false (Cmd.mk "partprobe" []) (ExternalBehavior.mk true "")
      = GatewayEffect.mk false (some (Cmd.mk "partprobe" [])) false "" :=
  ⟨rfl, rfl, rfl, rfl, rfl⟩

/-- Claim C2 counterexample: in commit mode a failing `umount` on the
first path aborts `UnmountAll` (the loop body is the strict, panicking
`Execute`), so the second path is never attempted. -/
theorem C2_counterexample :
    UnmountAll true (fun s => s == "/mnt/busy") ["/mnt/busy", "/mnt/second"]
      = (["/mnt/busy"], true)
  ∧ "/mnt/second" ∉
      (UnmountAll true (fun s => s == "/mnt/busy") ["/mnt/busy", "/mnt/second"]).1 := by
  decide

/-- Claim C2 (amended): `UnmountAll` issues each unmount through the
strict executor, so in simulate mode every path is recorded and nothing
aborts; in commit mode all paths are attempted when every unmount
succeeds, but the first failing unmount panics, aborting the run and
preventing the attempt on every later path. -/
theorem C2_amended_strict_unmount (fails : String → Bool) :
    (∀ ms, UnmountAll false fails ms = (ms, false))
  ∧ (∀ ms, (∀ m ∈ ms, fails m = false) → UnmountAll true fails ms = (ms, false))
  ∧ (∀ pre m post, (∀ x ∈ pre, fails x = false) → fails m = true →
      UnmountAll true fails (pre ++ m :: post) = (pre ++ [m], true)) := by
  refine ⟨?_, ?_, ?_⟩
  · intro ms
    induction ms with
    | nil => rfl
    | cons m t ih => simp [UnmountAll, ih]
  · intro ms h
    induction ms with
    | nil => rfl
    | cons m t ih =>
      have hm := h m (List.mem_cons_self m t)
      simp [UnmountAll, hm, ih fun x hx => h x (List.mem_cons_of_mem m hx)]
  · intro pre m post hpre hm
    induction pre with
    | nil => simp [UnmountAll, hm]
    | cons p t ih =>
      have hp := hpre p (List.mem_cons_self p t)
      simp [UnmountAll, hp,
        ih fun x hx => hpre x (List.mem_cons_of_mem p hx)]

/-- Claim C2 amended theorem applied at a concrete run: one clean path,
then a busy path, then a later path — the busy unmount aborts and the
later path is not attempted. -/
theorem C2_amended_strict_unmount_witness :
    UnmountAll true (fun s => s == "/mnt/busy")
      (["/mnt/ok"] ++ "/mnt/busy" :: ["/mnt/later"]) = (["/mnt/ok", "/mnt/busy"], true) :=
  (C2_amended_strict_unmount (fun s => s == "/mnt/busy")).2.2
    ["/mnt/ok"] "/mnt/busy" ["/mnt/later"] (by decide) (by decide)

/-- Claim C3 (code bug): the dataset step emits the block-kind swap
volume creation command for every request — the swap enable flag is never
consulted — so a request with swap disabled still gets a swap volume
(with the configured size, no mountpoint option, and absent from the
mount step, as the claim's remaining parts state). -/
theorem C3_swap_volume_created_unconditionally :
    (∀ c : Config, zfsCreateSwap c ∈ zfsDatasetCommands c)
  ∧ swapDisabledRequest.swapEnabled = false
  ∧ Cmd.mk "zfs" ["create", "-V", "8GiB", "zpool/swap"]
      ∈ zfsDatasetCommands swapDisabledRequest
  ∧ "mountpoint=legacy" ∉ (zfsCreateSwap swapDisabledRequest).args
  ∧ "zpool/swap" ∉ (mountCommands swapDisabledRequest).flatMap Cmd.args := by
  refine ⟨?_, rfl, by decide, by decide, by decide⟩
  intro c
  simp [zfsDatasetCommands]

/-- Claim C4 counterexample: on a text containing the block-opening
marker twice, the patcher (a replace-all) inserts the host-identity
assignment after BOTH occurrences, not only after the first; the output
predicted by the claim (one insertion after the first marker, everything
else unchanged) differs from what the code produces. -/
theorem C4_counterexample :
    patchHostId "abc12345".data twoMarkerText
      = "a".data ++ blockMarker ++ hostIdInsertion "abc12345".data
          ++ "b".data ++ blockMarker ++ hostIdInsertion "abc12345".data ++ "c".data
  ∧ patchHostId "abc12345".data twoMarkerText
      ≠ "a".data ++ blockMarker ++ hostIdLine "abc12345".data
          ++ "b".data ++ blockMarker ++ "c".data
  ∧ markerCount twoMarkerText = 2 := by
  refine ⟨by decide, by decide, by decide⟩

/-- Claim C4 (amended): the patcher inserts the host-identity assignment
line, followed by one extra blank line, immediately after EVERY
occurrence of the block-opening marker: marker-free texts are returned
unchanged, the output length grows by exactly one insertion per marker
occurrence, and a text starting with the marker gets the insertion
directly after it while the remainder is patched recursively. -/
theorem C4_amended_insert_after_every_marker (id t : List Char) :
    (markerCount t = 0 → patchHostId id t = t)
  ∧ (patchHostId id t).length
      = t.length + markerCount t * (hostIdInsertion id).length
  ∧ patchHostId id (blockMarker ++ t)
      = blockMarker ++ (hostIdInsertion id ++ patchHostId id t) := by
  refine ⟨?_, ?_, ?_⟩
  · induction t using markerCount.induct with
    | case1 c1 c2 c3 rest hmark ih =>
      intro h
      rw [markerCount] at h
      simp [hmark] at h
    | case2 c1 c2 c3 rest hmark ih =>
      intro h
      rw [markerCount] at h
      rw [if_neg hmark] at h
      rw [patchHostId, if_neg hmark, ih h]
    | case3 s h =>
      intro _
      rw [patchHostId]
      exact h
  · induction t using markerCount.induct with
    | case1 c1 c2 c3 rest hmark ih =>
      rw [patchHostId, if_pos hmark, markerCount, if_pos hmark]
      simp only [List.length_cons, List.length_append, ih]
      ring
    | case2 c1 c2 c3 rest hmark ih =>
      rw [patchHostId, if_neg hmark, markerCount, if_neg hmark]
      simp only [List.length_cons, ih]
      ring
    | case3 s h =>
      have hp : patchHostId id s = s := by rw [patchHostId]; exact h
      have hc0 : markerCount s = 0 := by rw [markerCount]; exact h
      simp [hp, hc0]
  · show patchHostId id (nlChar :: obChar :: nlChar :: t) = _
    rw [patchHostId, if_pos ⟨rfl, rfl, rfl⟩]
    rfl

/-- Claim C4 amended theorem applied at a marker-free concrete text:
the patcher leaves it unchanged. -/
theorem C4_amended_insert_after_every_marker_witness :
    patchHostId "abc12345".data "xy".data = "xy".data :=
  (C4_amended_insert_after_every_marker "abc12345".data "xy".data).1 (by decide)

/-- Claim C5 counterexample: for a two-disk stripe request the assembled
zpool arguments contain NO redundancy keyword at all (neither `stripe`
nor `mirror`), so the sequence differs from the claimed canonical order,
which demands a redundancy keyword whenever there is more than one data
disk. -/
theorem C5_counterexample :
    1 < stripeRequest.disks.length
  ∧ stripeRequest.pool.stripe = true
  ∧ zpoolArgs stripeRequest ≠ zpoolArgsSpecClaimed stripeRequest
  ∧ "stripe" ∉ zpoolArgs stripeRequest
  ∧ "mirror" ∉ zpoolArgs stripeRequest := by
  refine ⟨by decide, rfl, by decide, by decide, by decide⟩

/-- Claim C5 (amended): the zpool argument sequence is a deterministic
function of the request and follows the fixed canonical order — force
flag, compression (if enabled), encryption (if enabled), baseline tuning
block, alternate mount root, pool name, redundancy keyword, disks —
except that the redundancy keyword is emitted only for a multi-disk
MIRROR request (a stripe request gets no keyword); in particular for a
two-disk mirror request `mirror` appears immediately before the two disk
identifiers. -/
theorem C5_amended_canonical_order :
    (∀ c : Config, zpoolArgs c = zpoolArgsCanonical c)
  ∧ (∀ (c : Config) (d1 d2 : String), c.disks = [d1, d2] → c.pool.mirror = true →
      zpoolArgs c = zpoolHead c ++ ["mirror", d1, d2]) := by
  refine ⟨zpoolArgs_eq_canonical, ?_⟩
  intro c d1 d2 hd hm
  rw [zpoolArgs_eq_canonical]
  simp [zpoolArgsCanonical, zpoolRedundancyArgs, hd, hm]

/-- Claim C5 amended theorem applied at the two-disk mirror scenario:
the `mirror` keyword sits immediately before the two disk identifiers. -/
theorem C5_amended_canonical_order_witness :
    zpoolArgs mirrorRequest = zpoolHead mirrorRequest ++ ["mirror", "/dev/nvme0", "/dev/nvme1"] :=
  C5_amended_canonical_order.2 mirrorRequest "/dev/nvme0" "/dev/nvme1" rfl rfl

/-- Claim C6 counterexample: for a two-disk stripe request the keyword
`stripe` is nowhere in the zpool arguments; the disk identifiers directly
follow the pool name. -/
theorem C6_counterexample :
    1 < stripeRequestTwo.disks.length
  ∧ stripeRequestTwo.pool.stripe = true
  ∧ "stripe" ∉ zpoolArgs stripeRequestTwo
  ∧ zpoolArgs stripeRequestTwo = zpoolHead stripeRequestTwo ++ ["/dev/sdd", "/dev/sde"] := by
  refine ⟨by decide, rfl, by decide, by decide⟩

/-- Claim C6 (amended): whenever the request's mirror flag is off — in
particular for every multi-disk stripe request — no redundancy keyword is
emitted and the ordered disk list directly follows the pool name (stripe
is the pool tool's default layout, expressed by the absence of a
keyword). -/
theorem C6_amended_stripe_has_no_keyword (c : Config) (hm : c.pool.mirror = false) :
    zpoolArgs c = zpoolHead c ++ c.disks := by
  rw [zpoolArgs_eq_canonical]
  simp [zpoolArgsCanonical, zpoolRedundancyArgs, hm]

/-- Claim C6 amended theorem applied at the second two-disk stripe
scenario. -/
theorem C6_amended_stripe_has_no_keyword_witness :
    zpoolArgs stripeRequestTwo = zpoolHead stripeRequestTwo ++ stripeRequestTwo.disks :=
  C6_amended_stripe_has_no_keyword stripeRequestTwo rfl

/-- Claim C7 counterexample: with more than one data disk and an illegal
redundancy selection the pipeline does NOT fail — it still constructs a
complete argument list: with neither flag set the disks directly follow
the pool name, and with both flags set the mirror branch wins. -/
theorem C7_counterexample :
    1 < neitherRequest.disks.length
  ∧ neitherRequest.pool.mirror = false ∧ neitherRequest.pool.stripe = false
  ∧ zpoolArgs neitherRequest = zpoolHead neitherRequest ++ neitherRequest.disks
  ∧ 1 < bothRequest.disks.length
  ∧ bothRequest.pool.mirror = true ∧ bothRequest.pool.stripe = true
  ∧ zpoolArgs bothRequest = zpoolHead bothRequest ++ ["mirror"] ++ bothRequest.disks := by
  refine ⟨by decide, rfl, rfl, by decide, by decide, rfl, rfl, by decide⟩

/-- Claim C7 (amended): the pipeline itself performs no redundancy
re-check — for every request with more than one data disk whose mirror
and stripe flags are equal (both set or neither set) it still produces a
full argument list (the mirror keyword exactly when the mirror flag is
set) — while the external validator `validateConfig` is the component
that rejects every such configuration. -/
theorem C7_amended_no_pipeline_recheck (isBlock : String → Bool) (c : Config)
    (hlen : 1 < c.disks.length) (hms : c.pool.mirror = c.pool.stripe) :
    (validateConfig isBlock c).isSome = true
  ∧ zpoolArgs c = zpoolHead c ++ (if c.pool.mirror then ["mirror"] else []) ++ c.disks := by
  constructor
  · unfold validateConfig
    split
    · rfl
    · split
      · rfl
      · split
        · rfl
        · cases hm : c.pool.mirror <;> cases hs : c.pool.stripe <;> simp_all
  · rw [zpoolArgs_eq_canonical]
    simp [zpoolArgsCanonical, zpoolRedundancyArgs, hlen, List.append_assoc]

/-- Claim C7 amended theorem applied at the neither-mirror-nor-stripe
two-disk scenario: the validator rejects it, yet the pipeline still
assembles the argument list. -/
theorem C7_amended_no_pipeline_recheck_witness :
    (validateConfig (fun _ => true) neitherRequest).isSome = true
  ∧ zpoolArgs neitherRequest
      = zpoolHead neitherRequest
        ++ (if neitherRequest.pool.mirror then ["mirror"] else [])
        ++ neitherRequest.disks :=
  C7_amended_no_pipeline_recheck (fun _ => true) neitherRequest (by decide) rfl

/-- Claim C8 counterexample: invoked with no arguments the program does
not print usage and exit 0 — it proceeds straight into the pipeline with
the default flags. -/
theorem C8_counterexample :
    entry [] ≠ EntryAction.printUsageAndExitZero
  ∧ entry [] = EntryAction.runPipeline defaultFlags := by
  refine ⟨by decide, rfl⟩

/-- Claim C8 (amended): with no arguments the flags parse to their
defaults (config file `config.yaml`, simulate mode, generate-only) and
the run proceeds into the pipeline, whose directory-creation step issues
its ten commands; usage is printed (with exit status 2) only on a flag
parse error. -/
theorem C8_amended_no_args_runs_pipeline :
    entry [] = EntryAction.runPipeline (Flags.mk "config.yaml" false false)
  ∧ entry ["-bogus"] = EntryAction.flagErrorUsageExitTwo
  ∧ mkdirCommands.length = 10 := by
  refine ⟨rfl, rfl, rfl⟩

/-- Claim C9 counterexample: the two queries named by the claim do
resolve identically, but prefix stripping happens before lowercasing and
is case-sensitive, so merely changing the letter case of the queried
identifier CAN change the result: `NVME-ABC123` keeps its prefix,
normalises to `nvme-abc123`, and no longer matches the entry `abc123`. -/
theorem C9_counterexample :
    GetMountpoints "/dev/disk/by-id/nvme-ABC123".data abcSnapshot = ["/mnt/x".data]
  ∧ GetMountpoints "abc123".data abcSnapshot = ["/mnt/x".data]
  ∧ GetMountpoints "NVME-ABC123".data abcSnapshot = [] := by
  refine ⟨by decide, by decide, by decide⟩

/-- Claim C9 (amended): resolution depends on the query only through its
normalisation (case-sensitive stripping of the `/dev/disk/by-id/`,
`usb-`, `nvme-` prefixes, then trimming and lowercasing), so any two
queries with equal normalisations — in particular the claim's pair
`/dev/disk/by-id/nvme-ABC123` and `abc123` — resolve to the same mount
paths on every snapshot; case changes inside a prefix, however, defeat
the stripping. -/
theorem C9_amended_normalized_resolution :
    (∀ (q1 q2 : List Char) (devices : List BlockDevice),
        normalizeDeviceID q1 = normalizeDeviceID q2 →
        GetMountpoints q1 devices = GetMountpoints q2 devices)
  ∧ (∀ devices : List BlockDevice,
        GetMountpoints "/dev/disk/by-id/nvme-ABC123".data devices
          = GetMountpoints "abc123".data devices) := by
  constructor
  · intro q1 q2 devices h
    unfold GetMountpoints
    rw [h]
  · intro devices
    unfold GetMountpoints
    have h : normalizeDeviceID "/dev/disk/by-id/nvme-ABC123".data
        = normalizeDeviceID "abc123".data := by decide
    rw [h]

/-- Claim C9 amended theorem applied at a concrete pair with equal
normalisations (`usb-XYZ` and `xyz`). -/
theorem C9_amended_normalized_resolution_witness :
    GetMountpoints "usb-XYZ".data abcSnapshot = GetMountpoints "xyz".data abcSnapshot :=
  C9_amended_normalized_resolution.1 "usb-XYZ".data "xyz".data abcSnapshot (by decide)

/-- Helper: every string contains the empty substring
(`strings.Contains s "" = true`). -/
theorem containsSub_nil (hay : List Char) : containsSub hay [] = true := by
  rw [containsSub.eq_def]
  simp [List.isPrefixOf]

/-- Claim C10 (confirmed): when the supplied identifier normalises to the
empty string (for example the bare by-id path root, or pure whitespace),
the empty-substring comparison matches every entry, so `GetMountpoints`
returns the concatenated non-empty mount paths of every device in the
snapshot whose identifier field is non-empty. -/
theorem C10_empty_normalization_matches_every_entry
    (q : List Char) (devices : List BlockDevice)
    (h : normalizeDeviceID q = []) :
    GetMountpoints q devices
      = devices.flatMap (fun device =>
          if device.id = [] then []
          else device.mountpoints.filter (fun m => m ≠ [])) := by
  unfold GetMountpoints GetMountpointsCore
  rw [h]
  induction devices with
  | nil => rfl
  | cons d t ih =>
    simp only [List.flatMap_cons, ih, containsSub_nil]
    simp

/-- Claim C10 theorem applied at the bare by-id path root against a
snapshot with a null-id device, a device owning a null mount path, and an
unmounted device: the result is every non-empty mount path of every
non-null-id device. -/
theorem C10_empty_normalization_matches_every_entry_witness :
    normalizeDeviceID "/dev/disk/by-id/".data = []
  ∧ GetMountpoints "/dev/disk/by-id/".data mixedSnapshot
      = mixedSnapshot.flatMap (fun device =>
          if device.id = [] then []
          else device.mountpoints.filter (fun m => m ≠ [])) :=
  ⟨by decide,
   C10_empty_normalization_matches_every_entry "/dev/disk/by-id/".data mixedSnapshot
     (by decide)⟩

end NixosInstaller
